import Mathlib

/-!
Shallow embedding of the DailySummaryBot core (Rust) in Lean 4.

Modules embedded:
- `src/sprint_summary/ticket_state.rs`     (`TicketState`, ordered enum)
- `src/sprint_summary/ticket_label.rs`     (`TicketLabel`)
- `src/sprint_summary/ticket.rs`           (`PullRequest`, `TicketDetails`, `Ticket`,
                                            conversions to/from `DailyTicketContext`)
- `src/sprint_summary/ticket_summary.rs`   (`PrioritizedPush`, `TicketSummary`,
                                            `From<Vec<Ticket>>`, `From<&TicketSummary> for
                                            DailyTicketContexts`)
- `src/sprint_summary/sprint_records.rs`   (`ActiveSprintContext`, `DailyTicketContext(s)`,
                                            `CumulativeSprintContext(s)`,
                                            `count_sprints_since`, `was_sprint_name_used`)
- `src/sprint_summary/ticket_sources/mod.rs` (`TicketContext::new_context`,
                                            `fetch_ticket_summary` reconciliation loop)
- `src/sprint_summary/events/mod.rs`       (`try_into_sprint_command`)
- `src/sprint_summary/mod.rs`              (`days_until_end`, `save_sprint_state`)
- `src/utils/date.rs`                      (`days_between`)

Modelling conventions:
- Rust `VecDeque<T>` is a `List T`; `push_front` is cons, `push_back` appends a singleton.
- Rust `u32` counters are `Nat` (no classifier count can overflow for realistic inputs;
  the one place where a cast wraps, `days_until_end`'s `as u32`, is modelled exactly
  with `Int.emod` by 2^32).
- Rust `u32 as i32` is modelled by `i32ofU32` (two's-complement reinterpretation).
- `chrono` date parsing/arithmetic (external library) is reimplemented concretely:
  `%m/%d/%y` parsing with chrono's two-digit-year mapping, and civil-date day numbers.
- The ambient current date (`print_current_date`) is threaded as a `today : String`
  parameter.
- The async storage / notification clients are modelled as an explicit `Storage` state
  record threaded through `saveSprintState`; panics (`unwrap` / `expect`) and `?` error
  propagation both become `Except String`.
- Rust `f64` percentages (which can be NaN on 0/0) are modelled as `Option ℚ`:
  `none` stands for the NaN produced by dividing by a zero count.
- The Trello/GitHub `HashMap<String,String>` user mapping is modelled as a lookup
  function `String → Option String`.
-/

namespace DailySummaryBot

/-! ## TicketState (`ticket_state.rs`) -/

inductive TicketState where
  | backlogIdeas
  | inScope
  | investigationDiscussion
  | inProgress
  | pendingRelease
  | demoFinalApproval
  | done
deriving DecidableEq, Repr

/-- Discriminant order of the Rust enum; Rust's derived `Ord` compares these. -/
def TicketState.toNat : TicketState → Nat
  | .backlogIdeas => 0
  | .inScope => 1
  | .investigationDiscussion => 2
  | .inProgress => 3
  | .pendingRelease => 4
  | .demoFinalApproval => 5
  | .done => 6

def TicketState.le (a b : TicketState) : Prop := a.toNat ≤ b.toNat

def TicketState.lt (a b : TicketState) : Prop := a.toNat < b.toNat

instance (a b : TicketState) : Decidable (TicketState.le a b) :=
  inferInstanceAs (Decidable (a.toNat ≤ b.toNat))

instance (a b : TicketState) : Decidable (TicketState.lt a b) :=
  inferInstanceAs (Decidable (a.toNat < b.toNat))

/-! ## TicketLabel (`ticket_label.rs`) -/

inductive TicketLabel where
  | goal
  | frontEnd
  | backEnd
  | infra
  | bug
  | minor
  | blocked
deriving DecidableEq, Repr

/-! ## PullRequest (`ticket.rs`) -/

structure CheckRunDetails where
  name : String
  detailsUrl : String
deriving DecidableEq, Repr

structure PullRequest where
  state : String
  comments : Nat
  isDraft : Bool
  actionRequiredCheckRuns : List CheckRunDetails
  failingCheckRuns : List CheckRunDetails
  merged : Bool
  mergeable : Option Bool
deriving DecidableEq, Repr

/-- `PullRequest::is_blocked`:
`self.merged == false && (self.mergeable != Some(true) || !self.failing_check_runs.is_empty())`. -/
def PullRequest.isBlocked (pr : PullRequest) : Bool :=
  pr.merged == false && (pr.mergeable != some true || !pr.failingCheckRuns.isEmpty)

/-! ## TicketDetails / Ticket (`ticket.rs`) -/

structure TicketLink where
  name : String
  url : String
deriving DecidableEq, Repr

structure TicketDetails where
  id : String
  name : String
  state : TicketState
  url : String
  memberIds : List String
  hasDescription : Bool
  hasLabels : Bool
  labels : List TicketLabel
  checklistItems : Nat
  checkedChecklistItems : Nat
  prUrl : Option String
  dependencyOf : Option TicketLink
deriving DecidableEq, Repr

structure Ticket where
  sprintAge : Nat
  isNew : Bool
  addedInSprint : String
  addedOn : String
  lastMovedOn : String
  movedOutOfSprint : Bool
  members : List String
  details : TicketDetails
  pr : Option PullRequest
deriving DecidableEq, Repr

/-- `Ticket::is_goal`: `self.details.labels.iter().any(|label| *label == TicketLabel::Goal)`. -/
def Ticket.isGoal (t : Ticket) : Bool :=
  t.details.labels.any (fun label => label == TicketLabel.goal)

/-! ## Persisted records (`sprint_records.rs`) -/

structure ActiveSprintContext where
  name : String
  startDate : String
  endDate : String
  channelId : String
  trelloBoard : String
  openTicketsCountBeginning : Nat
  inScopeTicketsCountBeginning : Nat
deriving DecidableEq, Repr

/-- Persisted daily snapshot record. The field set follows the conversions in
`ticket.rs` (`From<&Ticket> for DailyTicketContext` / `From<&DailyTicketContext> for
Ticket`), which carry a `labels` vector. -/
structure DailyTicketContext where
  id : String
  name : String
  url : String
  state : TicketState
  labels : List TicketLabel
  addedOn : String
  addedInSprint : String
  lastMovedOn : String
  dependencyOf : Option TicketLink
deriving DecidableEq, Repr

structure DailyTicketContexts where
  tickets : List DailyTicketContext
deriving DecidableEq, Repr

structure CumulativeSprintContext where
  name : String
  startDate : String
  endDate : String
  percentComplete : Option ℚ
  completedTicketsCount : Nat
  ticketsAddedToScopeCount : Int
  openTicketsAddedCount : Int
deriving DecidableEq, Repr

structure CumulativeSprintContexts where
  history : List CumulativeSprintContext
deriving DecidableEq, Repr

/-- `CumulativeSprintContexts::count_sprints_since`:
`self.history.iter().rev().position(|item| item.name == sprint_name).map(|i| i + 1).unwrap_or(0)`. -/
def CumulativeSprintContexts.countSprintsSince
    (c : CumulativeSprintContexts) (sprintName : String) : Nat :=
  ((c.history.reverse.findIdx? (fun item => item.name == sprintName)).map (· + 1)).getD 0

/-- `CumulativeSprintContexts::was_sprint_name_used`: `self.count_sprints_since(name) > 0`. -/
def CumulativeSprintContexts.wasSprintNameUsed
    (c : CumulativeSprintContexts) (sprintName : String) : Bool :=
  decide (0 < c.countSprintsSince sprintName)

/-! ## Snapshot conversions (`ticket.rs`) -/

/-- `From<&Ticket> for DailyTicketContext`. -/
def DailyTicketContext.fromTicket (ticket : Ticket) : DailyTicketContext where
  id := ticket.details.id
  name := ticket.details.name
  url := ticket.details.url
  state := ticket.details.state
  labels := ticket.details.labels
  addedOn := ticket.addedOn
  addedInSprint := ticket.addedInSprint
  lastMovedOn := ticket.lastMovedOn
  dependencyOf := ticket.details.dependencyOf

/-- `From<&DailyTicketContext> for Ticket`: materialization of a snapshot-only
(orphaned) ticket. -/
def Ticket.fromDailyContext (record : DailyTicketContext) : Ticket where
  members := []
  pr := none
  sprintAge := 0
  movedOutOfSprint := true
  addedInSprint := record.addedInSprint
  addedOn := record.addedOn
  isNew := false
  lastMovedOn := record.lastMovedOn
  details :=
    { id := record.id
      name := record.name
      state := TicketState.inScope
      url := record.url
      hasDescription := true
      hasLabels := true
      labels := record.labels
      checklistItems := 0
      checkedChecklistItems := 0
      memberIds := []
      prUrl := none
      dependencyOf := record.dependencyOf }

/-! ## Classifier (`ticket_summary.rs`) -/

/-- `PrioritizedPush::prioritized_push` on `VecDeque<Ticket>`:
goal tickets are `push_front`, all others `push_back`. -/
def prioritizedPush (q : List Ticket) (ticket : Ticket) : List Ticket :=
  if ticket.isGoal then ticket :: q else q ++ [ticket]

structure TicketSummary where
  demoes : List Ticket
  blockedPrs : List Ticket
  openPrs : List Ticket
  openTickets : List Ticket
  deferredTickets : List Ticket
  completedTickets : List Ticket
  sprintTicketCount : Nat
  openTicketCount : Nat
  projectTicketCount : Nat
  projectTicketCountInScope : Nat
  completedPercentage : Option ℚ
deriving DecidableEq, Repr

/-- `TicketSummary::clear_completed_and_deferred`. -/
def TicketSummary.clearCompletedAndDeferred (s : TicketSummary) : TicketSummary :=
  { s with completedTickets := [], deferredTickets := [] }

/-- Accumulator state of the `for ticket in tickets` loop of
`impl From<Vec<Ticket>> for TicketSummary`. -/
structure SummaryAcc where
  demoes : List Ticket
  blockedPrs : List Ticket
  openPrs : List Ticket
  openTickets : List Ticket
  completedTickets : List Ticket
  deferredTickets : List Ticket
  sprintTicketCount : Nat
  projectTicketCountInScope : Nat
deriving DecidableEq, Repr

def SummaryAcc.initial : SummaryAcc :=
  ⟨[], [], [], [], [], [], 0, 0⟩

/-- One iteration of the classification loop in `From<Vec<Ticket>> for TicketSummary`. -/
def classifyStep (acc : SummaryAcc) (ticket : Ticket) : SummaryAcc :=
  if ticket.details.state = TicketState.done then
    { acc with
      sprintTicketCount := acc.sprintTicketCount + 1
      completedTickets := prioritizedPush acc.completedTickets ticket }
  else if ticket.details.state.le TicketState.inScope ∨ ticket.movedOutOfSprint then
    let acc :=
      if ticket.details.state = TicketState.inScope then
        { acc with projectTicketCountInScope := acc.projectTicketCountInScope + 1 }
      else acc
    if ticket.movedOutOfSprint then
      { acc with
        sprintTicketCount := acc.sprintTicketCount + 1
        deferredTickets := prioritizedPush acc.deferredTickets ticket }
    else acc
  else if ticket.details.state = TicketState.demoFinalApproval then
    { acc with
      sprintTicketCount := acc.sprintTicketCount + 1
      demoes := prioritizedPush acc.demoes ticket }
  else
    let acc := { acc with sprintTicketCount := acc.sprintTicketCount + 1 }
    match ticket.pr with
    | some pr =>
      if !pr.isDraft && pr.isBlocked then
        { acc with blockedPrs := prioritizedPush acc.blockedPrs ticket }
      else if !pr.isDraft then
        { acc with openPrs := prioritizedPush acc.openPrs ticket }
      else
        { acc with openTickets := prioritizedPush acc.openTickets ticket }
    | none =>
      { acc with openTickets := prioritizedPush acc.openTickets ticket }

/-- `impl From<Vec<Ticket>> for TicketSummary`. `open_ticket_count` uses the same
`u32` subtraction as the source (never underflows: completed and deferred tickets are
each counted into `sprint_ticket_count`); `completed_percentage` is `None` exactly when
the source divides by a zero `sprint_ticket_count` and produces NaN. -/
def ticketSummaryFrom (tickets : List Ticket) : TicketSummary :=
  let acc := tickets.foldl classifyStep SummaryAcc.initial
  { demoes := acc.demoes
    blockedPrs := acc.blockedPrs
    openPrs := acc.openPrs
    openTickets := acc.openTickets
    deferredTickets := acc.deferredTickets
    completedTickets := acc.completedTickets
    sprintTicketCount := acc.sprintTicketCount
    openTicketCount :=
      acc.sprintTicketCount - acc.completedTickets.length - acc.deferredTickets.length
    projectTicketCount := tickets.length
    projectTicketCountInScope := acc.projectTicketCountInScope
    completedPercentage :=
      if acc.sprintTicketCount = 0 then none
      else some ((acc.completedTickets.length : ℚ) / (acc.sprintTicketCount : ℚ) * 100) }

/-- `impl From<&TicketSummary> for DailyTicketContexts`: the persisted snapshot set
extends, in order, blocked PRs, open PRs, open tickets, completed, deferred — and
omits `demoes`. -/
def dailyTicketContextsFrom (summary : TicketSummary) : DailyTicketContexts :=
  { tickets :=
      (summary.blockedPrs ++ summary.openPrs ++ summary.openTickets ++
        summary.completedTickets ++ summary.deferredTickets).map DailyTicketContext.fromTicket }

/-! ## Dates (`utils/date.rs`, backed by chrono)

`print_current_date()` formats today as `%m/%d/%y`; `days_between` parses both strings
with `%m/%d/%y` and returns the signed day difference. The chrono library itself is
external, so its `%m/%d/%y` parsing (including the 00-68 → 20xx / 69-99 → 19xx
two-digit-year rule) and civil-date arithmetic are reproduced concretely here. -/

def isLeapYear (y : Nat) : Bool :=
  y % 4 == 0 && (y % 100 != 0 || y % 400 == 0)

def daysInMonth (y m : Nat) : Nat :=
  if m = 2 then (if isLeapYear y then 29 else 28)
  else if m = 4 ∨ m = 6 ∨ m = 9 ∨ m = 11 then 30
  else 31

/-- chrono's `%y` two-digit year mapping. -/
def mapTwoDigitYear (y : Nat) : Nat :=
  if y ≤ 68 then 2000 + y else 1900 + y

/-- Split a character list on `'/'` separators. -/
def splitOnSlash : List Char → List (List Char)
  | [] => [[]]
  | c :: cs =>
    let rest := splitOnSlash cs
    if c = '/' then [] :: rest
    else
      match rest with
      | [] => [[c]]
      | r :: rs => (c :: r) :: rs

/-- Interpret a non-empty run of ASCII digits as a number. -/
def digitsToNat? (cs : List Char) : Option Nat :=
  if cs.isEmpty then none
  else
    cs.foldl
      (fun acc c =>
        match acc with
        | none => none
        | some a =>
          if 48 ≤ c.toNat ∧ c.toNat ≤ 57 then some (a * 10 + (c.toNat - 48)) else none)
      (some 0)

/-- Parse an `%m/%d/%y` date string into (month, day, full year), `none` on any
parse failure (chrono accepts 1-2 digit fields and rejects out-of-range
components). -/
def parseDateMDY (s : String) : Option (Nat × Nat × Nat) :=
  match splitOnSlash s.data with
  | [ms, ds, ys] => do
    let m ← digitsToNat? ms
    let d ← digitsToNat? ds
    let y ← digitsToNat? ys
    if ms.length ≤ 2 ∧ ds.length ≤ 2 ∧ ys.length ≤ 2 ∧ 1 ≤ m ∧ m ≤ 12 then
      let yy := mapTwoDigitYear y
      if 1 ≤ d ∧ d ≤ daysInMonth yy m then some (m, d, yy) else none
    else none
  | _ => none

/-- Day number of a civil (proleptic Gregorian) date, for computing differences. -/
def daysFromCivil (y m d : Nat) : Int :=
  let yy : Int := if m ≤ 2 then (y : Int) - 1 else (y : Int)
  let mm : Int := if m ≤ 2 then (m : Int) + 12 else (m : Int)
  365 * yy + yy / 4 - yy / 100 + yy / 400 + (153 * (mm - 3) + 2) / 5 + (d : Int) - 1

/-- `days_between(mmddyyy_1, mmddyyy_2)`: the signed number of days from the first
date (today when `None`) to the second; `none` models the `ParseError` result. -/
def daysBetween (d1 : Option String) (d2 : String) (today : String) : Option Int := do
  let (m1, day1, y1) ← parseDateMDY (d1.getD today)
  let (m2, day2, y2) ← parseDateMDY d2
  some (daysFromCivil y2 m2 day2 - daysFromCivil y1 m1 day1)

/-- Rust `i64 as u32`: truncation to the low 32 bits. -/
def u32cast (i : Int) : Nat :=
  (Int.emod i 4294967296).toNat

/-- Rust `u32 as i32`: two's-complement reinterpretation. -/
def i32ofU32 (n : Nat) : Int :=
  if n % 4294967296 < 2147483648 then ((n % 4294967296 : Nat) : Int)
  else ((n % 4294967296 : Nat) : Int) - 4294967296

/-- `ActiveSprintContext::days_until_end` (`sprint_summary/mod.rs`):
`days_between(None, &self.end_date).expect(..) as u32`. The `.expect` panic on a
parse failure is modelled as `none`; note the cast of the *signed* difference to
`u32`, which wraps negative differences to large values. -/
def ActiveSprintContext.daysUntilEnd
    (ctx : ActiveSprintContext) (today : String) : Option Nat :=
  (daysBetween none ctx.endDate today).map u32cast

/-! ## Command parser (`events/mod.rs`) -/

inductive SprintEvents where
  | messageTrigger (command : String) (args : List String)
      (channelId : String) (responseUrl : Option String)
  | scheduledTrigger
deriving DecidableEq, Repr

inductive SprintCommand where
  | sprintPreview (sprintName endDate channelId : String)
  | sprintKickoff (sprintName endDate channelId : String)
  | sprintCheckIn
  | sprintEnd
  | sprintCancel
  | dailySummary
  | sprintReview
deriving DecidableEq, Repr

/-- `SprintEvents::try_into_sprint_command` (`events/mod.rs`).

Two source details are reproduced faithfully:
- in the kickoff branch the `NaiveDate::parse_from_str(&args[0], "%m/%d/%Y")` result is
  computed into an unused temporary (no `?` / no `return`), so a malformed end date does
  not cause an error — the statement has no effect and is therefore not modelled;
- the reused-name check is `was_sprint_name_used(&command)` — it is passed the slash
  command string, not the sprint-name argument `args[1]`. -/
def tryIntoSprintCommand (ev : SprintEvents)
    (activeSprintContext : Option ActiveSprintContext)
    (cumulativeSprintContexts : CumulativeSprintContexts)
    (today : String) : Except String SprintCommand :=
  match activeSprintContext with
  | some activeSprintRecord =>
    match ev with
    | .messageTrigger command _ _ _ =>
      if command = "/sprint-kickoff" ∨ command = "/sprint-kickoff-confirm" then
        .error ("Sprint " ++ activeSprintRecord.name ++ " already in progress")
      else if command = "/sprint-cancel" then .ok .sprintCancel
      else if command = "/sprint-end" then .ok .sprintEnd
      else if command = "/sprint-check-in" then .ok .sprintCheckIn
      else .error "Invalid command"
    | .scheduledTrigger =>
      match activeSprintRecord.daysUntilEnd today with
      | none => .error "panic: Days until end should be parseable"
      | some d => if d ≤ 0 then .ok .sprintReview else .ok .dailySummary
  | none =>
    match ev with
    | .messageTrigger command args channelId _ =>
      if command = "/sprint-cancel" ∨ command = "/sprint-end" ∨
          command = "/sprint-check-in" then
        .error "No sprint in progress"
      else if command = "/sprint-kickoff" ∨ command = "/sprint-kickoff-confirm" then
        if args.length < 2 then
          .error "Text field does not contain enough parts"
        else if cumulativeSprintContexts.wasSprintNameUsed command then
          .error ("Sprint name " ++ command ++ " was already used")
        else if command = "/sprint-kickoff-confirm" then
          .ok (.sprintKickoff (args.getD 1 "") (args.getD 0 "") channelId)
        else
          .ok (.sprintPreview (args.getD 1 "") (args.getD 0 "") channelId)
      else .error "Invalid command"
    | .scheduledTrigger => .error "No sprint in progress"

/-! ## Reconciler (`ticket_sources/mod.rs`) -/

structure TicketContext where
  addedOn : String
  addedInSprint : String
  sprintAge : Nat
  lastMovedOn : String
deriving DecidableEq, Repr

/-- `TicketContext::new_context`. -/
def TicketContext.newContext (ticketDetails : TicketDetails)
    (previousVersion : Option DailyTicketContext) (currentSprintName : String)
    (historicalRecords : CumulativeSprintContexts) (today : String) : TicketContext :=
  match previousVersion with
  | some previous =>
    { addedOn := previous.addedOn
      addedInSprint := previous.addedInSprint
      sprintAge := historicalRecords.countSprintsSince previous.addedInSprint
      lastMovedOn :=
        if previous.state ≠ ticketDetails.state then today else previous.lastMovedOn }
  | none =>
    { addedOn := today
      addedInSprint := currentSprintName
      sprintAge := 0
      lastMovedOn := today }

/-- The body of the `for ticket_details in current_ticket_details` loop of
`fetch_ticket_summary`: build one reconciled `Ticket` from a live record and its
optional prior snapshot. `prFetch` models the PR client (`fetch_pr_details(url)
.expect(..)`); `userMapping` models the `HashMap` lookup used to resolve members
(unresolved ids are silently dropped by `filter_map`). -/
def reconcileTicket (ticketDetails : TicketDetails)
    (previousVersion : Option DailyTicketContext) (currentSprintName : String)
    (historicalRecords : CumulativeSprintContexts)
    (userMapping : String → Option String)
    (prFetch : String → PullRequest) (today : String) : Ticket :=
  let pr := ticketDetails.prUrl.map prFetch
  let context :=
    TicketContext.newContext ticketDetails previousVersion currentSprintName
      historicalRecords today
  { pr
    movedOutOfSprint :=
      previousVersion.isSome && decide (ticketDetails.state.le TicketState.inScope)
    sprintAge := context.sprintAge
    addedOn := context.addedOn
    addedInSprint := context.addedInSprint
    lastMovedOn := context.lastMovedOn
    isNew := false
    members := ticketDetails.memberIds.filterMap userMapping
    details := ticketDetails }

/-- The reconciled ticket list built by `fetch_ticket_summary` before conversion into a
`TicketSummary`: live records reconciled against their prior snapshots, followed by the
orphaned snapshot-only tickets (`Ticket::from(record)` for each prior record whose id
has no matching live record). -/
def fetchTicketSummaryTickets (currentTicketDetails : List TicketDetails)
    (previousTicketData : DailyTicketContexts) (currentSprintName : String)
    (historicalRecords : CumulativeSprintContexts)
    (userMapping : String → Option String)
    (prFetch : String → PullRequest) (today : String) : List Ticket :=
  let resultTickets := currentTicketDetails.map (fun ticketDetails =>
    reconcileTicket ticketDetails
      (previousTicketData.tickets.find? (fun record => record.id == ticketDetails.id))
      currentSprintName historicalRecords userMapping prFetch today)
  let currentTicketIds := currentTicketDetails.map (fun d => d.id)
  let orphanedTickets := (previousTicketData.tickets.filter
      (fun record => !currentTicketIds.contains record.id)).map Ticket.fromDailyContext
  resultTickets ++ orphanedTickets

/-- `fetch_ticket_summary`: reconcile and classify (`result_tickets.into()`). -/
def fetchTicketSummary (currentTicketDetails : List TicketDetails)
    (previousTicketData : DailyTicketContexts) (currentSprintName : String)
    (historicalRecords : CumulativeSprintContexts)
    (userMapping : String → Option String)
    (prFetch : String → PullRequest) (today : String) : TicketSummary :=
  ticketSummaryFrom
    (fetchTicketSummaryTickets currentTicketDetails previousTicketData
      currentSprintName historicalRecords userMapping prFetch today)

/-! ## Lifecycle orchestrator (`sprint_summary/mod.rs`, `save_sprint_state`) -/

/-- The persisted key-value store (S3 JSON documents) plus the EventBridge
notification rules, modelled as explicit state. `rules` maps a sprint name to its
cron expression. -/
structure Storage where
  sprintData : Option ActiveSprintContext
  ticketData : Option DailyTicketContexts
  historicalData : Option CumulativeSprintContexts
  rules : List (String × String)
deriving DecidableEq, Repr

def DAILY_SUMMARY_TIME : String := "cron(0 3 * * ? *)"

def SPRINT_REVIEW_TIME : String := "cron(0 4 * * ? *)"

def Storage.createRule (st : Storage) (name cron : String) : Storage :=
  { st with rules := st.rules ++ [(name, cron)] }

def Storage.changeRule (st : Storage) (name cron : String) : Storage :=
  { st with rules := st.rules.map (fun r => if r.1 = name then (name, cron) else r) }

def Storage.deleteRule (st : Storage) (name : String) : Storage :=
  { st with rules := st.rules.filter (fun r => !(r.1 == name)) }

/-- `SprintCommand::save_sprint_state`. The Rust method mutates `ticket_summary` and
`cumulative_sprint_contexts` in place and performs client calls; here it returns the
updated summary, history and storage. `trelloBoardEnv` models the `TRELLO_BOARD_ID`
environment variable (`env::var(..)?`). Panics (`unwrap`) are modelled as errors. -/
def saveSprintState (cmd : SprintCommand) (ticketSummary : TicketSummary)
    (activeSprintContext : Option ActiveSprintContext)
    (cumulativeSprintContexts : CumulativeSprintContexts)
    (storage : Storage) (trelloBoardEnv : Option String) (today : String) :
    Except String (TicketSummary × CumulativeSprintContexts × Storage) :=
  match cmd with
  | .sprintKickoff sprintName endDate channelId =>
    match trelloBoardEnv with
    | none => .error "environment variable not found"
    | some trelloBoard =>
      let newSprintContext : ActiveSprintContext :=
        { endDate := endDate
          name := sprintName
          channelId := channelId
          startDate := today
          openTicketsCountBeginning := ticketSummary.openTicketCount
          inScopeTicketsCountBeginning := ticketSummary.sprintTicketCount
          trelloBoard := trelloBoard }
      let storage := { storage with sprintData := some newSprintContext }
      let storage := storage.createRule sprintName DAILY_SUMMARY_TIME
      let storage := { storage with ticketData := some (dailyTicketContextsFrom ticketSummary) }
      .ok (ticketSummary, cumulativeSprintContexts, storage)
  | .dailySummary =>
    let storage := { storage with ticketData := some (dailyTicketContextsFrom ticketSummary) }
    match activeSprintContext with
    | none => .error "panic: called unwrap on a None value"
    | some context =>
      match daysBetween (some today) context.endDate today with
      | none => .error "panic: called unwrap on an Err value"
      | some d =>
        let storage :=
          if d = 1 then storage.changeRule context.name SPRINT_REVIEW_TIME else storage
        .ok (ticketSummary, cumulativeSprintContexts, storage)
  | .sprintCancel | .sprintEnd | .sprintReview =>
    match activeSprintContext with
    | some sprintData =>
      let storage := storage.deleteRule sprintData.name
      if cmd = .sprintEnd ∨ cmd = .sprintReview then
        let openTicketsAddedCount :=
          i32ofU32 ticketSummary.openTicketCount -
            i32ofU32 sprintData.openTicketsCountBeginning
        let ticketsAddedToScopeCount :=
          i32ofU32 ticketSummary.sprintTicketCount -
            i32ofU32 sprintData.inScopeTicketsCountBeginning
        let cumulativeSprintContexts : CumulativeSprintContexts :=
          { history := cumulativeSprintContexts.history ++
              [{ name := sprintData.name
                 startDate := sprintData.startDate
                 endDate := sprintData.endDate
                 percentComplete := ticketSummary.completedPercentage
                 completedTicketsCount := ticketSummary.completedTickets.length
                 openTicketsAddedCount := openTicketsAddedCount
                 ticketsAddedToScopeCount := ticketsAddedToScopeCount }] }
        let storage := { storage with historicalData := some cumulativeSprintContexts }
        let ticketSummary := ticketSummary.clearCompletedAndDeferred
        let storage := { storage with ticketData := some (dailyTicketContextsFrom ticketSummary) }
        let storage := { storage with sprintData := none }
        .ok (ticketSummary, cumulativeSprintContexts, storage)
      else
        let storage := { storage with sprintData := none }
        .ok (ticketSummary, cumulativeSprintContexts, storage)
    | none => .error "Active sprint context is required for this operation."
  | _ => .ok (ticketSummary, cumulativeSprintContexts, storage)

/-! ## Verification infrastructure for the classifier -/

/-- The six output buckets of the classifier. -/
inductive Bucket where
  | completed
  | deferred
  | demo
  | blockedPrs
  | openPrs
  | openTickets
deriving DecidableEq, Repr

/-- The bucket the classification loop pushes a ticket into (`none` when the ticket is
skipped: `state <= InScope` and not moved out of the sprint). Follows the branch
structure of `From<Vec<Ticket>> for TicketSummary` exactly. -/
def bucketOf (t : Ticket) : Option Bucket :=
  if t.details.state = TicketState.done then some .completed
  else if t.details.state.le TicketState.inScope ∨ t.movedOutOfSprint then
    if t.movedOutOfSprint then some .deferred else none
  else if t.details.state = TicketState.demoFinalApproval then some .demo
  else
    match t.pr with
    | some pr =>
      if !pr.isDraft && pr.isBlocked then some .blockedPrs
      else if !pr.isDraft then some .openPrs
      else some .openTickets
    | none => some .openTickets

def SummaryAcc.bucket (acc : SummaryAcc) : Bucket → List Ticket
  | .completed => acc.completedTickets
  | .deferred => acc.deferredTickets
  | .demo => acc.demoes
  | .blockedPrs => acc.blockedPrs
  | .openPrs => acc.openPrs
  | .openTickets => acc.openTickets

def TicketSummary.bucket (s : TicketSummary) : Bucket → List Ticket
  | .completed => s.completedTickets
  | .deferred => s.deferredTickets
  | .demo => s.demoes
  | .blockedPrs => s.blockedPrs
  | .openPrs => s.openPrs
  | .openTickets => s.openTickets

/-- Push a ticket into the given bucket of the accumulator (with the accompanying
`sprint_ticket_count += 1`); `none` leaves the accumulator unchanged. -/
def SummaryAcc.pushInto (acc : SummaryAcc) (b : Option Bucket) (t : Ticket) : SummaryAcc :=
  match b with
  | none => acc
  | some .completed =>
    { acc with sprintTicketCount := acc.sprintTicketCount + 1
               completedTickets := prioritizedPush acc.completedTickets t }
  | some .deferred =>
    { acc with sprintTicketCount := acc.sprintTicketCount + 1
               deferredTickets := prioritizedPush acc.deferredTickets t }
  | some .demo =>
    { acc with sprintTicketCount := acc.sprintTicketCount + 1
               demoes := prioritizedPush acc.demoes t }
  | some .blockedPrs =>
    { acc with sprintTicketCount := acc.sprintTicketCount + 1
               blockedPrs := prioritizedPush acc.blockedPrs t }
  | some .openPrs =>
    { acc with sprintTicketCount := acc.sprintTicketCount + 1
               openPrs := prioritizedPush acc.openPrs t }
  | some .openTickets =>
    { acc with sprintTicketCount := acc.sprintTicketCount + 1
               openTickets := prioritizedPush acc.openTickets t }

/-- The `project_ticket_count_in_scope` increment of the classification loop. -/
def SummaryAcc.incScope (acc : SummaryAcc) (t : Ticket) : SummaryAcc :=
  if t.details.state = TicketState.inScope then
    { acc with projectTicketCountInScope := acc.projectTicketCountInScope + 1 }
  else acc

theorem classifyStep_char (acc : SummaryAcc) (t : Ticket) :
    classifyStep acc t = (acc.incScope t).pushInto (bucketOf t) t := by
  unfold classifyStep bucketOf SummaryAcc.pushInto SummaryAcc.incScope
  by_cases h1 : t.details.state = TicketState.done
  · simp [h1]
  · by_cases hs : t.details.state = TicketState.inScope
    · have hle : t.details.state.le TicketState.inScope := by
        simp [hs, TicketState.le]
      by_cases hm : t.movedOutOfSprint
      · simp [h1, hs, hle, hm]
      · simp [h1, hs, hle, hm, TicketState.le, TicketState.toNat]
    · by_cases hle : t.details.state.le TicketState.inScope
      · by_cases hm : t.movedOutOfSprint
        · simp [h1, hs, hle, hm]
        · simp [h1, hs, hle, hm]
      · by_cases hm : t.movedOutOfSprint
        · simp [h1, hs, hle, hm]
        · by_cases h3 : t.details.state = TicketState.demoFinalApproval
          · simp [h1, hs, hle, hm, h3, TicketState.le, TicketState.toNat]
          · cases hpr : t.pr with
            | none => simp [h1, hs, hle, hm, h3, hpr]
            | some pr =>
              by_cases hb : (!pr.isDraft && pr.isBlocked) = true
              · simp [h1, hs, hle, hm, h3, hpr, hb]
              · by_cases hd : (!pr.isDraft) = true
                · simp only [hd, Bool.true_and] at hb
                  simp [h1, hs, hle, hm, h3, hpr, hb, hd]
                · simp [h1, hs, hle, hm, h3, hpr, hb, hd]

theorem length_prioritizedPush (l : List Ticket) (t : Ticket) :
    (prioritizedPush l t).length = l.length + 1 := by
  unfold prioritizedPush
  split
  · simp
  · simp

theorem mem_prioritizedPush {x t : Ticket} {l : List Ticket} :
    x ∈ prioritizedPush l t ↔ x ∈ l ∨ x = t := by
  unfold prioritizedPush
  split <;> simp <;> tauto

theorem incScope_eq (acc : SummaryAcc) (t : Ticket) :
    acc.incScope t =
      { acc with projectTicketCountInScope := acc.projectTicketCountInScope +
          (if t.details.state = TicketState.inScope then 1 else 0) } := by
  unfold SummaryAcc.incScope
  split <;> simp

theorem bucket_incScope (acc : SummaryAcc) (t : Ticket) (b : Bucket) :
    (acc.incScope t).bucket b = acc.bucket b := by
  rw [incScope_eq]
  cases b <;> rfl

theorem sprintCount_incScope (acc : SummaryAcc) (t : Ticket) :
    (acc.incScope t).sprintTicketCount = acc.sprintTicketCount := by
  rw [incScope_eq]

theorem bucket_pushInto (acc : SummaryAcc) (bb : Option Bucket) (t : Ticket) (b : Bucket) :
    (acc.pushInto bb t).bucket b =
      if bb = some b then prioritizedPush (acc.bucket b) t else acc.bucket b := by
  cases bb with
  | none => simp [SummaryAcc.pushInto]
  | some c => cases c <;> cases b <;> simp [SummaryAcc.pushInto, SummaryAcc.bucket]

theorem sprintCount_pushInto (acc : SummaryAcc) (bb : Option Bucket) (t : Ticket) :
    (acc.pushInto bb t).sprintTicketCount =
      acc.sprintTicketCount + (if bb = none then 0 else 1) := by
  cases bb with
  | none => simp [SummaryAcc.pushInto]
  | some c => cases c <;> simp [SummaryAcc.pushInto]

theorem projScope_pushInto (acc : SummaryAcc) (bb : Option Bucket) (t : Ticket) :
    (acc.pushInto bb t).projectTicketCountInScope = acc.projectTicketCountInScope := by
  cases bb with
  | none => rfl
  | some c => cases c <;> rfl

/-- Sum of the six bucket sizes of the accumulator. -/
def sumBuckets (acc : SummaryAcc) : Nat :=
  acc.completedTickets.length + acc.demoes.length + acc.blockedPrs.length +
    acc.openPrs.length + acc.openTickets.length + acc.deferredTickets.length

theorem sumBuckets_pushInto (acc : SummaryAcc) (bb : Option Bucket) (t : Ticket) :
    sumBuckets (acc.pushInto bb t) = sumBuckets acc + (if bb = none then 0 else 1) := by
  cases bb with
  | none => simp [SummaryAcc.pushInto]
  | some c =>
    cases c <;> simp [SummaryAcc.pushInto, sumBuckets, length_prioritizedPush] <;> omega

theorem sumBuckets_incScope (acc : SummaryAcc) (t : Ticket) :
    sumBuckets (acc.incScope t) = sumBuckets acc := by
  rw [incScope_eq]
  rfl

/-- The loop invariant: `sprint_ticket_count` always equals the total size of the six
buckets. -/
theorem foldl_sprintCount_eq_sumBuckets (ts : List Ticket) (acc : SummaryAcc)
    (h : acc.sprintTicketCount = sumBuckets acc) :
    (ts.foldl classifyStep acc).sprintTicketCount =
      sumBuckets (ts.foldl classifyStep acc) := by
  induction ts generalizing acc with
  | nil => simpa using h
  | cons t ts ih =>
    simp only [List.foldl_cons]
    apply ih
    rw [classifyStep_char, sprintCount_pushInto, sumBuckets_pushInto,
      sumBuckets_incScope, sprintCount_incScope, h]

/-- Membership in a bucket after folding the classification loop. -/
theorem mem_bucket_foldl {x : Ticket} {b : Bucket} (ts : List Ticket) (acc : SummaryAcc) :
    x ∈ (ts.foldl classifyStep acc).bucket b ↔
      x ∈ acc.bucket b ∨ (x ∈ ts ∧ bucketOf x = some b) := by
  induction ts generalizing acc with
  | nil => simp
  | cons t ts ih =>
    simp only [List.foldl_cons, ih, classifyStep_char, bucket_pushInto, bucket_incScope]
    constructor
    · rintro (hmem | h)
      · by_cases hb : bucketOf t = some b
        · rw [if_pos hb, mem_prioritizedPush] at hmem
          rcases hmem with hmem | rfl
          · exact Or.inl hmem
          · exact Or.inr ⟨List.mem_cons_self _ _, hb⟩
        · rw [if_neg hb] at hmem
          exact Or.inl hmem
      · exact Or.inr ⟨List.mem_cons_of_mem _ h.1, h.2⟩
    · rintro (hmem | ⟨hx, hbx⟩)
      · by_cases hb : bucketOf t = some b
        · rw [if_pos hb, mem_prioritizedPush]
          exact Or.inl (Or.inl hmem)
        · rw [if_neg hb]
          exact Or.inl hmem
      · rcases List.mem_cons.mp hx with rfl | hx
        · rw [if_pos hbx, mem_prioritizedPush]
          exact Or.inl (Or.inr rfl)
        · exact Or.inr ⟨hx, hbx⟩

/-- `project_ticket_count_in_scope` counts exactly the tickets whose state is
`InScope`. -/
theorem projScope_foldl (ts : List Ticket) (acc : SummaryAcc) :
    (ts.foldl classifyStep acc).projectTicketCountInScope =
      acc.projectTicketCountInScope +
        ts.countP (fun t => decide (t.details.state = TicketState.inScope)) := by
  induction ts generalizing acc with
  | nil => simp
  | cons t ts ih =>
    simp only [List.foldl_cons, ih, classifyStep_char, projScope_pushInto, incScope_eq,
      List.countP_cons]
    by_cases hs : t.details.state = TicketState.inScope
    · simp [hs]
      omega
    · simp [hs]

/-- A list in which every ticket carrying the Goal label precedes every ticket that
does not: the shape maintained by `prioritized_push` within each bucket. -/
def GoalFronted (l : List Ticket) : Prop :=
  ∃ g n, l = g ++ n ∧ (∀ x ∈ g, x.isGoal = true) ∧ (∀ x ∈ n, x.isGoal = false)

theorem goalFronted_nil : GoalFronted [] :=
  ⟨[], [], rfl, by simp, by simp⟩

theorem goalFronted_prioritizedPush {l : List Ticket} (t : Ticket)
    (h : GoalFronted l) : GoalFronted (prioritizedPush l t) := by
  obtain ⟨g, n, rfl, hg, hn⟩ := h
  unfold prioritizedPush
  split
  · rename_i hgoal
    exact ⟨t :: g, n, by simp, by
      intro x hx
      rcases List.mem_cons.mp hx with rfl | hx
      · exact hgoal
      · exact hg x hx, hn⟩
  · rename_i hgoal
    refine ⟨g, n ++ [t], by simp, hg, ?_⟩
    intro x hx
    rcases List.mem_append.mp hx with hx | hx
    · exact hn x hx
    · rcases List.mem_singleton.mp hx with rfl
      exact Bool.not_eq_true _ ▸ eq_false_of_ne_true hgoal

theorem goalFronted_bucket_foldl (ts : List Ticket) (acc : SummaryAcc)
    (h : ∀ b, GoalFronted (acc.bucket b)) :
    ∀ b, GoalFronted ((ts.foldl classifyStep acc).bucket b) := by
  induction ts generalizing acc with
  | nil => simpa using h
  | cons t ts ih =>
    simp only [List.foldl_cons]
    apply ih
    intro b
    rw [classifyStep_char, bucket_pushInto, bucket_incScope]
    by_cases hb : bucketOf t = some b
    · rw [if_pos hb]
      exact goalFronted_prioritizedPush t (h b)
    · rw [if_neg hb]
      exact h b

/-- In a goal-fronted list, any goal ticket occurs at a strictly smaller index than
any non-goal ticket. -/
theorem goalFronted_index {l : List Ticket} (h : GoalFronted l) {i j : Nat}
    (hi : i < l.length) (hj : j < l.length)
    (hgi : (l.get ⟨i, hi⟩).isGoal = false) (hgj : (l.get ⟨j, hj⟩).isGoal = true) :
    j < i := by
  obtain ⟨g, n, rfl, hg, hn⟩ := h
  have hjlt : j < g.length := by
    by_contra hjge
    push_neg at hjge
    have hjn : j - g.length < n.length := by
      simp only [List.length_append] at hj
      omega
    have : (g ++ n).get ⟨j, hj⟩ = n.get ⟨j - g.length, hjn⟩ := by
      simp only [List.get_eq_getElem]
      exact List.getElem_append_right hjge
    rw [this] at hgj
    have hzero := hn (n.get ⟨j - g.length, hjn⟩) (List.get_mem n (j - g.length) hjn)
    rw [hzero] at hgj
    exact Bool.false_ne_true hgj
  have hige : g.length ≤ i := by
    by_contra hilt
    push_neg at hilt
    have : (g ++ n).get ⟨i, hi⟩ = g.get ⟨i, hilt⟩ := by
      simp only [List.get_eq_getElem]
      exact List.getElem_append_left hilt
    rw [this] at hgi
    have hone := hg (g.get ⟨i, hilt⟩) (List.get_mem g i hilt)
    rw [hone] at hgi
    simp at hgi
  omega

/-! ## Bridging lemmas between `ticketSummaryFrom` and the loop accumulator -/

theorem bucket_ticketSummaryFrom (ts : List Ticket) (b : Bucket) :
    (ticketSummaryFrom ts).bucket b = (ts.foldl classifyStep SummaryAcc.initial).bucket b := by
  cases b <;> rfl

theorem mem_bucket_ticketSummaryFrom {x : Ticket} {b : Bucket} (ts : List Ticket) :
    x ∈ (ticketSummaryFrom ts).bucket b ↔ x ∈ ts ∧ bucketOf x = some b := by
  rw [bucket_ticketSummaryFrom, mem_bucket_foldl]
  have : SummaryAcc.initial.bucket b = [] := by cases b <;> rfl
  simp [this]

/-- `sprint_ticket_count` of the final summary equals the sum of all six bucket
sizes. -/
theorem sprintCount_eq_sum_buckets (ts : List Ticket) :
    (ticketSummaryFrom ts).sprintTicketCount =
      (ticketSummaryFrom ts).completedTickets.length +
        (ticketSummaryFrom ts).demoes.length +
        (ticketSummaryFrom ts).blockedPrs.length +
        (ticketSummaryFrom ts).openPrs.length +
        (ticketSummaryFrom ts).openTickets.length +
        (ticketSummaryFrom ts).deferredTickets.length := by
  have h := foldl_sprintCount_eq_sumBuckets ts SummaryAcc.initial rfl
  exact h

theorem goalFronted_bucket_ticketSummaryFrom (ts : List Ticket) (b : Bucket) :
    GoalFronted ((ticketSummaryFrom ts).bucket b) := by
  rw [bucket_ticketSummaryFrom]
  apply goalFronted_bucket_foldl
  intro b'
  have : SummaryAcc.initial.bucket b' = [] := by cases b' <;> rfl
  rw [this]
  exact goalFronted_nil

/-! ## Further helper lemmas -/

theorem sprintCount_foldl_countP (ts : List Ticket) (acc : SummaryAcc) :
    (ts.foldl classifyStep acc).sprintTicketCount =
      acc.sprintTicketCount + ts.countP (fun t => (bucketOf t).isSome) := by
  induction ts generalizing acc with
  | nil => simp
  | cons t ts ih =>
    simp only [List.foldl_cons, ih, classifyStep_char, sprintCount_pushInto,
      sprintCount_incScope, List.countP_cons]
    cases hb : bucketOf t <;> simp [hb] <;> omega

/-- Every ticket produced by the reconciliation loop that is flagged
`moved_out_of_sprint` has state at or below `InScope`. -/
theorem movedOut_imp_le_of_mem_fetch
    (cur : List TicketDetails) (prev : DailyTicketContexts) (sprintName : String)
    (hist : CumulativeSprintContexts) (um : String → Option String)
    (prf : String → PullRequest) (today : String) {t : Ticket}
    (ht : t ∈ fetchTicketSummaryTickets cur prev sprintName hist um prf today)
    (hm : t.movedOutOfSprint = true) :
    t.details.state.le TicketState.inScope := by
  unfold fetchTicketSummaryTickets at ht
  rcases List.mem_append.mp ht with hl | hr
  · obtain ⟨d, _, rfl⟩ := List.mem_map.mp hl
    simp only [reconcileTicket, Bool.and_eq_true, decide_eq_true_eq] at hm
    exact hm.2
  · obtain ⟨r, _, rfl⟩ := List.mem_map.mp hr
    simp [Ticket.fromDailyContext, TicketState.le, TicketState.toNat]

theorem bucketOf_of_not_moved_and_gt {t : Ticket}
    (hm : t.movedOutOfSprint = false)
    (hlt : TicketState.lt TicketState.inScope t.details.state) :
    ∃ b : Bucket, bucketOf t = some b ∧ b ≠ Bucket.deferred := by
  have hnle : ¬t.details.state.le TicketState.inScope := by
    simp only [TicketState.le, TicketState.lt, TicketState.toNat] at hlt ⊢
    omega
  unfold bucketOf
  by_cases h1 : t.details.state = TicketState.done
  · exact ⟨Bucket.completed, by simp [h1], by simp⟩
  · rw [if_neg h1, if_neg (by simp [hnle, hm])]
    by_cases h3 : t.details.state = TicketState.demoFinalApproval
    · exact ⟨Bucket.demo, by simp [h3], by simp⟩
    · rw [if_neg h3]
      cases hpr : t.pr with
      | none => exact ⟨Bucket.openTickets, rfl, by simp⟩
      | some pr =>
        by_cases hb : (!pr.isDraft && pr.isBlocked) = true
        · exact ⟨Bucket.blockedPrs, by simp [hb], by simp⟩
        · by_cases hd : (!pr.isDraft) = true
          · simp only [hd, Bool.true_and] at hb
            exact ⟨Bucket.openPrs, by simp [hb, hd], by simp⟩
          · exact ⟨Bucket.openTickets, by simp [hb, hd], by simp⟩

theorem bucketOf_eq_none_of_le_not_moved {t : Ticket}
    (hle : t.details.state.le TicketState.inScope)
    (hm : t.movedOutOfSprint = false) :
    bucketOf t = none := by
  have h1 : t.details.state ≠ TicketState.done := by
    intro h
    rw [h] at hle
    simp [TicketState.le, TicketState.toNat] at hle
  unfold bucketOf
  rw [if_neg h1, if_pos (Or.inl hle), if_neg (by simp [hm])]

theorem bucketOf_deferred_of_moved {t : Ticket}
    (hle : t.details.state.le TicketState.inScope)
    (hm : t.movedOutOfSprint = true) :
    bucketOf t = some Bucket.deferred := by
  have h1 : t.details.state ≠ TicketState.done := by
    intro h
    rw [h] at hle
    simp [TicketState.le, TicketState.toNat] at hle
  unfold bucketOf
  rw [if_neg h1, if_pos (Or.inl hle), if_pos hm]

/-- `findIdx?` with start index `s` returns `some (s + i)` when `i` is the first index
satisfying the predicate. -/
theorem findIdx?_eq_some_of_first {α : Type} (p : α → Bool) (l : List α) (i s : Nat)
    (hi : i < l.length) (hp : p (l.get ⟨i, hi⟩) = true)
    (hmin : ∀ j (hj : j < i), p (l.get ⟨j, Nat.lt_trans hj hi⟩) = false) :
    List.findIdx? p l s = some (s + i) := by
  induction l generalizing i s with
  | nil => simp at hi
  | cons x xs ih =>
    rw [List.findIdx?_cons]
    cases i with
    | zero =>
      simp only [List.get] at hp
      rw [if_pos hp]
      simp
    | succ i' =>
      have h0 : p x = false := by
        have := hmin 0 (Nat.succ_pos i')
        simpa [List.get] using this
      rw [if_neg (by simp [h0])]
      have hi' : i' < xs.length := by simpa using hi
      have hrec := ih i' (s + 1) hi' (by simpa [List.get] using hp)
        (fun j hj => by
          have := hmin (j + 1) (Nat.succ_lt_succ hj)
          simpa [List.get] using this)
      rw [hrec]
      congr 1
      omega

theorem i32ofU32_eq_self {n : Nat} (h : n < 2147483648) : i32ofU32 n = (n : Int) := by
  unfold i32ofU32
  rw [Nat.mod_eq_of_lt (by omega)]
  rw [if_pos h]

/-! ## Sample data for concrete instantiations -/

def sampleDetails : TicketDetails :=
  { id := "t1", name := "Ticket", state := TicketState.inProgress, url := "u"
    memberIds := [], hasDescription := true, hasLabels := true, labels := []
    checklistItems := 0, checkedChecklistItems := 0, prUrl := none, dependencyOf := none }

def samplePlainTicket : Ticket :=
  { sprintAge := 0, isNew := false, addedInSprint := "S1", addedOn := "01/01/25"
    lastMovedOn := "01/01/25", movedOutOfSprint := false, members := []
    details := sampleDetails, pr := none }

def sampleGoalTicket : Ticket :=
  { samplePlainTicket with
      details := { sampleDetails with id := "g1", labels := [TicketLabel.goal] } }

def sampleBacklogTicket : Ticket :=
  { samplePlainTicket with
      details := { sampleDetails with id := "b1", state := TicketState.backlogIdeas } }

/-! ## Claim theorems -/

/-- C1: the claim states that with no active sprint, a kickoff trigger whose
sprint-name argument already appears in the cumulative history (for instance
`"Sprint 1"`) is rejected with an error and no command. The code instead passes the
slash-command string — not the name argument `args[1]` — to
`was_sprint_name_used`, and discards the end-date parse result, so the kickoff with
the reused name `"Sprint 1"` is accepted and a `SprintKickoff` command is emitted.
This theorem evaluates the embedded parser at exactly the repository's own test input
(`test_sprint_kickoff_with_used_name`, which asserts an error and therefore
contradicts the code). -/
theorem c1_kickoff_name_reuse_not_rejected :
    tryIntoSprintCommand
      (SprintEvents.messageTrigger "/sprint-kickoff-confirm" ["02/01/22", "Sprint 1"]
        "C789123" none)
      none
      ⟨[{ name := "Sprint 1", startDate := "01/01/24", endDate := "02/01/24",
          percentComplete := none, completedTicketsCount := 12,
          ticketsAddedToScopeCount := 5, openTicketsAddedCount := 7 }]⟩
      "10/12/26"
    = Except.ok (SprintCommand.sprintKickoff "Sprint 1" "02/01/22" "C789123") := by
  rfl

/-- C5: the claim states a scheduled trigger with an active sprint emits `Review`
whenever `daysUntilEnd() <= 0`, including when the end date is already in the past.
`days_until_end` casts the signed `i64` day difference to `u32`, so a past end date
wraps to a huge positive value (here 4294967295) and the parser emits `DailySummary`
instead. The repository's own test `test_sprint_review_with_active_sprint_due_for_review`
(end date `01/01/22`, long past) asserts `SprintReview` and therefore contradicts the
code. This theorem evaluates the embedded parser on a context whose end date is the
day before `today`. -/
theorem c5_scheduled_past_end_yields_daily_summary :
    tryIntoSprintCommand SprintEvents.scheduledTrigger
      (some { name := "Sprint 1", startDate := "01/01/22", endDate := "10/11/26",
              channelId := "C1", trelloBoard := "b",
              openTicketsCountBeginning := 0, inScopeTicketsCountBeginning := 0 })
      ⟨[]⟩ "10/12/26"
    = Except.ok SprintCommand.dailySummary ∧
    (ActiveSprintContext.daysUntilEnd
      { name := "Sprint 1", startDate := "01/01/22", endDate := "10/11/26",
        channelId := "C1", trelloBoard := "b",
        openTicketsCountBeginning := 0, inScopeTicketsCountBeginning := 0 }
      "10/12/26") = some 4294967295 := by
  exact ⟨rfl, rfl⟩

/-- C3 (counterexample): the claim states the classifier increments
`projectTicketCountInScope` for every ticket with state at or below `InScope` that
did not move out of the sprint, including `BacklogIdeas` tickets. For a single
`BacklogIdeas` ticket the counter stays `0`: the code increments it only when the
state is exactly `InScope`. -/
theorem c3_backlog_not_counted_in_scope :
    TicketState.le sampleBacklogTicket.details.state TicketState.inScope
    ∧ sampleBacklogTicket.movedOutOfSprint = false
    ∧ (ticketSummaryFrom [sampleBacklogTicket]).projectTicketCountInScope = 0 := by
  refine ⟨by decide, rfl, rfl⟩

/-- C3 (amended): `projectTicketCountInScope` counts exactly the tickets whose state
equals `InScope` (a `BacklogIdeas` ticket is not counted); every ticket with state at
or below `InScope` that did not move out of the sprint is placed in no bucket, and
`sprintTicketCount` counts exactly the tickets placed into some bucket, so such a
ticket is not counted in it. -/
theorem c3_amended_in_scope_counter_spec (ts : List Ticket) :
    (ticketSummaryFrom ts).projectTicketCountInScope =
        ts.countP (fun t => decide (t.details.state = TicketState.inScope))
    ∧ (ticketSummaryFrom ts).sprintTicketCount =
        ts.countP (fun t => (bucketOf t).isSome)
    ∧ ∀ t ∈ ts, t.details.state.le TicketState.inScope → t.movedOutOfSprint = false →
        bucketOf t = none ∧ ∀ b : Bucket, t ∉ (ticketSummaryFrom ts).bucket b := by
  refine ⟨?_, ?_, ?_⟩
  · have h := projScope_foldl ts SummaryAcc.initial
    simpa [ticketSummaryFrom, SummaryAcc.initial] using h
  · have h := sprintCount_foldl_countP ts SummaryAcc.initial
    simpa [ticketSummaryFrom, SummaryAcc.initial] using h
  · intro t _ hle hm
    have hnone := bucketOf_eq_none_of_le_not_moved hle hm
    refine ⟨hnone, ?_⟩
    intro b hmem
    rw [mem_bucket_ticketSummaryFrom] at hmem
    rw [hnone] at hmem
    exact Option.noConfusion hmem.2

/-- C3 (amended) witness: concrete instantiation at a single `BacklogIdeas` ticket. -/
theorem c3_amended_in_scope_counter_witness :
    (ticketSummaryFrom [sampleBacklogTicket]).projectTicketCountInScope = 0
    ∧ sampleBacklogTicket ∉
        (ticketSummaryFrom [sampleBacklogTicket]).bucket Bucket.openTickets := by
  have h := c3_amended_in_scope_counter_spec [sampleBacklogTicket]
  refine ⟨by rw [h.1]; rfl, ?_⟩
  exact (h.2.2 sampleBacklogTicket (by decide) (by decide) (by decide)).2 Bucket.openTickets

/-- C8: within every bucket of the classifier's output, a ticket carrying the `Goal`
label occurs at a strictly smaller index than a ticket without it (so in particular,
if non-goal B was pushed before goal A, A precedes B in the final sequence — the
property holds regardless of push order, which is stronger than the claim). -/
theorem c8_goal_precedes_nongoal_in_bucket (ts : List Ticket) (b : Bucket)
    (i j : Nat) (hi : i < ((ticketSummaryFrom ts).bucket b).length)
    (hj : j < ((ticketSummaryFrom ts).bucket b).length)
    (hB : (((ticketSummaryFrom ts).bucket b).get ⟨i, hi⟩).isGoal = false)
    (hA : (((ticketSummaryFrom ts).bucket b).get ⟨j, hj⟩).isGoal = true) :
    j < i :=
  goalFronted_index (goalFronted_bucket_ticketSummaryFrom ts b) hi hj hB hA

/-- C8 witness: the plain ticket is pushed first, the goal ticket second; in the
resulting `openTickets` bucket the goal ticket (index 0) precedes the plain one
(index 1). -/
theorem c8_goal_precedes_nongoal_witness : (0 : Nat) < 1 :=
  c8_goal_precedes_nongoal_in_bucket [samplePlainTicket, sampleGoalTicket]
    Bucket.openTickets 1 0 (by decide) (by decide) (by decide) (by decide)

def sampleUserMapping : String → Option String := fun _ => none

def samplePRFetch : String → PullRequest :=
  fun _ => { state := "open", comments := 0, isDraft := false,
             actionRequiredCheckRuns := [], failingCheckRuns := [],
             merged := false, mergeable := some true }

def sampleCur : List TicketDetails := [sampleDetails]

def sampleReconciledTicket : Ticket :=
  reconcileTicket sampleDetails none "S1" ⟨[]⟩ sampleUserMapping samplePRFetch "10/12/26"

/-- C2: for every ticket list produced by the reconciler, each ticket with state
strictly above `InScope` lies in exactly one of the five non-deferred buckets
{completed, demo, blockedPRs, openPRs, openTickets}, and `sprintTicketCount` equals
the sum of the five bucket sizes plus the deferred bucket size. -/
theorem c2_bucket_completeness
    (cur : List TicketDetails) (prev : DailyTicketContexts) (sprintName : String)
    (hist : CumulativeSprintContexts) (um : String → Option String)
    (prf : String → PullRequest) (today : String) :
    (∀ t ∈ fetchTicketSummaryTickets cur prev sprintName hist um prf today,
      TicketState.lt TicketState.inScope t.details.state →
        (∃ b : Bucket, b ≠ Bucket.deferred ∧
            t ∈ (fetchTicketSummary cur prev sprintName hist um prf today).bucket b)
        ∧ ∀ b b' : Bucket,
            t ∈ (fetchTicketSummary cur prev sprintName hist um prf today).bucket b →
            t ∈ (fetchTicketSummary cur prev sprintName hist um prf today).bucket b' →
            b = b')
    ∧ (fetchTicketSummary cur prev sprintName hist um prf today).sprintTicketCount =
        (fetchTicketSummary cur prev sprintName hist um prf today).completedTickets.length +
        (fetchTicketSummary cur prev sprintName hist um prf today).demoes.length +
        (fetchTicketSummary cur prev sprintName hist um prf today).blockedPrs.length +
        (fetchTicketSummary cur prev sprintName hist um prf today).openPrs.length +
        (fetchTicketSummary cur prev sprintName hist um prf today).openTickets.length +
        (fetchTicketSummary cur prev sprintName hist um prf today).deferredTickets.length := by
  constructor
  · intro t ht hlt
    have hm : t.movedOutOfSprint = false := by
      cases hmv : t.movedOutOfSprint with
      | false => rfl
      | true =>
        have hle := movedOut_imp_le_of_mem_fetch cur prev sprintName hist um prf today ht hmv
        simp only [TicketState.le, TicketState.lt, TicketState.toNat] at hle hlt
        omega
    obtain ⟨b, hb, hbd⟩ := bucketOf_of_not_moved_and_gt hm hlt
    constructor
    · refine ⟨b, hbd, ?_⟩
      rw [fetchTicketSummary, mem_bucket_ticketSummaryFrom]
      exact ⟨ht, hb⟩
    · intro b1 b2 h1 h2
      rw [fetchTicketSummary, mem_bucket_ticketSummaryFrom] at h1 h2
      have e1 := h1.2
      have e2 := h2.2
      rw [e1] at e2
      exact Option.some.inj e2
  · exact sprintCount_eq_sum_buckets _

/-- C2 witness: one live in-progress ticket, empty history and snapshot set. -/
theorem c2_bucket_completeness_witness :
    ∃ b : Bucket, b ≠ Bucket.deferred ∧
      sampleReconciledTicket ∈
        (fetchTicketSummary sampleCur ⟨[]⟩ "S1" ⟨[]⟩ sampleUserMapping samplePRFetch
          "10/12/26").bucket b := by
  have h := c2_bucket_completeness sampleCur ⟨[]⟩ "S1" ⟨[]⟩ sampleUserMapping
    samplePRFetch "10/12/26"
  exact (h.1 sampleReconciledTicket (by decide) (by decide)).1

/-- C4: a live record with no prior snapshot reconciles with `addedOn = today`,
`addedInSprint` the current sprint name, `sprintAge = 0`, `lastMovedOn = today` and
`movedOutOfSprint = false` (and the reconciled ticket is in the produced list); a
live record with a prior snapshot in the same state keeps the snapshot's
`lastMovedOn` exactly. -/
theorem c4_fresh_and_carryover
    (cur : List TicketDetails) (prev : DailyTicketContexts) (sprintName : String)
    (hist : CumulativeSprintContexts) (um : String → Option String)
    (prf : String → PullRequest) (today : String) :
    (∀ d ∈ cur, prev.tickets.find? (fun r => r.id == d.id) = none →
      reconcileTicket d none sprintName hist um prf today ∈
          fetchTicketSummaryTickets cur prev sprintName hist um prf today
      ∧ (reconcileTicket d none sprintName hist um prf today).addedOn = today
      ∧ (reconcileTicket d none sprintName hist um prf today).addedInSprint = sprintName
      ∧ (reconcileTicket d none sprintName hist um prf today).sprintAge = 0
      ∧ (reconcileTicket d none sprintName hist um prf today).lastMovedOn = today
      ∧ (reconcileTicket d none sprintName hist um prf today).movedOutOfSprint = false)
    ∧ ∀ d ∈ cur, ∀ p : DailyTicketContext,
        prev.tickets.find? (fun r => r.id == d.id) = some p →
        p.state = d.state →
        (reconcileTicket d (some p) sprintName hist um prf today).lastMovedOn =
          p.lastMovedOn := by
  constructor
  · intro d hd hfind
    refine ⟨?_, rfl, rfl, rfl, rfl, rfl⟩
    unfold fetchTicketSummaryTickets
    apply List.mem_append_left
    have hmem := List.mem_map_of_mem (fun ticketDetails =>
      reconcileTicket ticketDetails
        (prev.tickets.find? (fun record => record.id == ticketDetails.id))
        sprintName hist um prf today) hd
    simpa [hfind] using hmem
  · intro d _ p _ hstate
    simp [reconcileTicket, TicketContext.newContext, hstate]

def samplePrevRecord : DailyTicketContext :=
  { id := "t1", name := "Ticket", url := "u", state := TicketState.inProgress,
    labels := [], addedOn := "12/01/25", addedInSprint := "S0",
    lastMovedOn := "12/05/25", dependencyOf := none }

/-- C4 witness: a fresh record against an empty snapshot set, and a carried-over
record whose snapshot has the same state. -/
theorem c4_fresh_and_carryover_witness :
    (reconcileTicket sampleDetails none "S1" ⟨[]⟩ sampleUserMapping samplePRFetch
        "10/12/26").addedOn = "10/12/26"
    ∧ (reconcileTicket sampleDetails (some samplePrevRecord) "S1" ⟨[]⟩
        sampleUserMapping samplePRFetch "10/12/26").lastMovedOn = "12/05/25" := by
  have h := c4_fresh_and_carryover sampleCur ⟨[]⟩ "S1" ⟨[]⟩ sampleUserMapping
    samplePRFetch "10/12/26"
  have h2 := c4_fresh_and_carryover sampleCur ⟨[samplePrevRecord]⟩ "S1" ⟨[]⟩
    sampleUserMapping samplePRFetch "10/12/26"
  refine ⟨(h.1 sampleDetails (by decide) (by decide)).2.1, ?_⟩
  exact h2.2 sampleDetails (by decide) samplePrevRecord (by decide) (by decide)

/-- C7: `countSprintsSince(name)` returns `1 + i` where `i` is the index of the first
entry named `name` when scanning the history from the most recent entry backward, and
`0` when the name never appears; `wasSprintNameUsed(name)` holds exactly when the
count is positive; and a reconciled ticket with a prior snapshot has `sprintAge`
equal to `countSprintsSince(snapshot.addedInSprint)`. -/
theorem c7_count_sprints_since_spec :
    (∀ (c : CumulativeSprintContexts) (name : String) (i : Nat)
        (hi : i < c.history.reverse.length),
      (c.history.reverse.get ⟨i, hi⟩).name = name →
      (∀ j (hj : j < i), (c.history.reverse.get ⟨j, Nat.lt_trans hj hi⟩).name ≠ name) →
      c.countSprintsSince name = i + 1)
    ∧ (∀ (c : CumulativeSprintContexts) (name : String),
        (∀ r ∈ c.history, r.name ≠ name) → c.countSprintsSince name = 0)
    ∧ (∀ (c : CumulativeSprintContexts) (name : String),
        c.wasSprintNameUsed name = true ↔ 0 < c.countSprintsSince name)
    ∧ (∀ (d : TicketDetails) (p : DailyTicketContext) (sprintName : String)
        (hist : CumulativeSprintContexts) (um : String → Option String)
        (prf : String → PullRequest) (today : String),
        (reconcileTicket d (some p) sprintName hist um prf today).sprintAge =
          hist.countSprintsSince p.addedInSprint) := by
  refine ⟨?_, ?_, ?_, ?_⟩
  · intro c name i hi hname hmin
    unfold CumulativeSprintContexts.countSprintsSince
    have hfind := findIdx?_eq_some_of_first (fun item => item.name == name)
      c.history.reverse i 0 hi
      (by simp only [beq_iff_eq]; exact hname)
      (fun j hj => by
        simp only [beq_eq_false_iff_ne]
        exact hmin j hj)
    rw [hfind]
    simp
  · intro c name hnone
    unfold CumulativeSprintContexts.countSprintsSince
    have hfind : c.history.reverse.findIdx? (fun item => item.name == name) = none := by
      rw [List.findIdx?_eq_none_iff]
      intro x hx
      simp [hnone x (List.mem_reverse.mp hx)]
    rw [hfind]
    rfl
  · intro c name
    unfold CumulativeSprintContexts.wasSprintNameUsed
    exact decide_eq_true_iff
  · intro d p sprintName hist um prf today
    rfl

/-- C7 witness: in a two-entry history ["Sprint 1", "Sprint 2"], scanning backward
finds "Sprint 1" at index 1, so the count is 2 (and an empty history gives 0). -/
theorem c7_count_sprints_since_witness :
    (CumulativeSprintContexts.countSprintsSince
      ⟨[{ name := "Sprint 1", startDate := "", endDate := "", percentComplete := none,
          completedTicketsCount := 0, ticketsAddedToScopeCount := 0,
          openTicketsAddedCount := 0 },
        { name := "Sprint 2", startDate := "", endDate := "", percentComplete := none,
          completedTicketsCount := 0, ticketsAddedToScopeCount := 0,
          openTicketsAddedCount := 0 }]⟩ "Sprint 1") = 2
    ∧ (CumulativeSprintContexts.countSprintsSince ⟨[]⟩ "Sprint 1") = 0 := by
  have h := c7_count_sprints_since_spec
  constructor
  · exact h.1 _ "Sprint 1" 1 (by decide) (by decide)
      (fun j hj => by
        have hj0 : j = 0 := by omega
        subst hj0
        exact (by decide : ("Sprint 2" : String) ≠ "Sprint 1"))
  · exact h.2.1 ⟨[]⟩ "Sprint 1" (by simp)

/-- C6: applying `End` or `Review` with an active sprint context appends exactly one
cumulative record whose `openTicketsAddedCount` is the summary's open count minus the
context's count at start and whose `ticketsAddedToScopeCount` is the summary's sprint
(in-scope) count minus the context's in-scope count at start, clears the completed and
deferred buckets of the working summary before persisting the snapshot set, and clears
the active sprint context. The bounds keep the `u32 as i32` casts exact. -/
theorem c6_end_review_spec (cmd : SprintCommand) (ts : TicketSummary)
    (ctx : ActiveSprintContext) (cum : CumulativeSprintContexts)
    (st : Storage) (env : Option String) (today : String)
    (hcmd : cmd = SprintCommand.sprintEnd ∨ cmd = SprintCommand.sprintReview)
    (ho : ts.openTicketCount < 2147483648)
    (hob : ctx.openTicketsCountBeginning < 2147483648)
    (hsc : ts.sprintTicketCount < 2147483648)
    (hscb : ctx.inScopeTicketsCountBeginning < 2147483648) :
    ∃ ts' cum' st',
      saveSprintState cmd ts (some ctx) cum st env today = Except.ok (ts', cum', st')
      ∧ cum'.history = cum.history ++
          [{ name := ctx.name, startDate := ctx.startDate, endDate := ctx.endDate,
             percentComplete := ts.completedPercentage,
             completedTicketsCount := ts.completedTickets.length,
             ticketsAddedToScopeCount :=
               (ts.sprintTicketCount : Int) - (ctx.inScopeTicketsCountBeginning : Int),
             openTicketsAddedCount :=
               (ts.openTicketCount : Int) - (ctx.openTicketsCountBeginning : Int) }]
      ∧ ts' = ts.clearCompletedAndDeferred
      ∧ ts'.completedTickets = []
      ∧ ts'.deferredTickets = []
      ∧ st'.ticketData = some (dailyTicketContextsFrom ts')
      ∧ st'.historicalData = some cum'
      ∧ st'.sprintData = none := by
  have hrec :
      ({ name := ctx.name, startDate := ctx.startDate, endDate := ctx.endDate,
         percentComplete := ts.completedPercentage,
         completedTicketsCount := ts.completedTickets.length,
         ticketsAddedToScopeCount :=
           i32ofU32 ts.sprintTicketCount - i32ofU32 ctx.inScopeTicketsCountBeginning,
         openTicketsAddedCount :=
           i32ofU32 ts.openTicketCount - i32ofU32 ctx.openTicketsCountBeginning } :
        CumulativeSprintContext) =
      { name := ctx.name, startDate := ctx.startDate, endDate := ctx.endDate,
        percentComplete := ts.completedPercentage,
        completedTicketsCount := ts.completedTickets.length,
        ticketsAddedToScopeCount :=
          (ts.sprintTicketCount : Int) - (ctx.inScopeTicketsCountBeginning : Int),
        openTicketsAddedCount :=
          (ts.openTicketCount : Int) - (ctx.openTicketsCountBeginning : Int) } := by
    rw [i32ofU32_eq_self ho, i32ofU32_eq_self hob, i32ofU32_eq_self hsc,
      i32ofU32_eq_self hscb]
  rcases hcmd with rfl | rfl
  · have hEq : saveSprintState SprintCommand.sprintEnd ts (some ctx) cum st env today =
        Except.ok (ts.clearCompletedAndDeferred,
          ⟨cum.history ++
            [{ name := ctx.name, startDate := ctx.startDate, endDate := ctx.endDate,
               percentComplete := ts.completedPercentage,
               completedTicketsCount := ts.completedTickets.length,
               ticketsAddedToScopeCount :=
                 i32ofU32 ts.sprintTicketCount -
                   i32ofU32 ctx.inScopeTicketsCountBeginning,
               openTicketsAddedCount :=
                 i32ofU32 ts.openTicketCount -
                   i32ofU32 ctx.openTicketsCountBeginning }]⟩,
          { sprintData := none,
            ticketData := some (dailyTicketContextsFrom ts.clearCompletedAndDeferred),
            historicalData := some ⟨cum.history ++
              [{ name := ctx.name, startDate := ctx.startDate, endDate := ctx.endDate,
                 percentComplete := ts.completedPercentage,
                 completedTicketsCount := ts.completedTickets.length,
                 ticketsAddedToScopeCount :=
                   i32ofU32 ts.sprintTicketCount -
                     i32ofU32 ctx.inScopeTicketsCountBeginning,
                 openTicketsAddedCount :=
                   i32ofU32 ts.openTicketCount -
                     i32ofU32 ctx.openTicketsCountBeginning }]⟩,
            rules := st.rules.filter (fun r => !(r.1 == ctx.name)) }) := rfl
    refine ⟨_, _, _, hEq, ?_, rfl, rfl, rfl, rfl, rfl, rfl⟩
    rw [hrec]
  · have hEq : saveSprintState SprintCommand.sprintReview ts (some ctx) cum st env today =
        Except.ok (ts.clearCompletedAndDeferred,
          ⟨cum.history ++
            [{ name := ctx.name, startDate := ctx.startDate, endDate := ctx.endDate,
               percentComplete := ts.completedPercentage,
               completedTicketsCount := ts.completedTickets.length,
               ticketsAddedToScopeCount :=
                 i32ofU32 ts.sprintTicketCount -
                   i32ofU32 ctx.inScopeTicketsCountBeginning,
               openTicketsAddedCount :=
                 i32ofU32 ts.openTicketCount -
                   i32ofU32 ctx.openTicketsCountBeginning }]⟩,
          { sprintData := none,
            ticketData := some (dailyTicketContextsFrom ts.clearCompletedAndDeferred),
            historicalData := some ⟨cum.history ++
              [{ name := ctx.name, startDate := ctx.startDate, endDate := ctx.endDate,
                 percentComplete := ts.completedPercentage,
                 completedTicketsCount := ts.completedTickets.length,
                 ticketsAddedToScopeCount :=
                   i32ofU32 ts.sprintTicketCount -
                     i32ofU32 ctx.inScopeTicketsCountBeginning,
                 openTicketsAddedCount :=
                   i32ofU32 ts.openTicketCount -
                     i32ofU32 ctx.openTicketsCountBeginning }]⟩,
            rules := st.rules.filter (fun r => !(r.1 == ctx.name)) }) := rfl
    refine ⟨_, _, _, hEq, ?_, rfl, rfl, rfl, rfl, rfl, rfl⟩
    rw [hrec]

def sampleSummary : TicketSummary :=
  { demoes := [], blockedPrs := [], openPrs := [], openTickets := [samplePlainTicket],
    deferredTickets := [sampleBacklogTicket], completedTickets := [sampleGoalTicket],
    sprintTicketCount := 3, openTicketCount := 1, projectTicketCount := 3,
    projectTicketCountInScope := 0, completedPercentage := none }

def sampleCtx : ActiveSprintContext :=
  { name := "S1", startDate := "10/01/26", endDate := "10/12/26", channelId := "C1",
    trelloBoard := "board", openTicketsCountBeginning := 2,
    inScopeTicketsCountBeginning := 3 }

def sampleStorage : Storage :=
  { sprintData := some sampleCtx, ticketData := none, historicalData := none,
    rules := [("S1", DAILY_SUMMARY_TIME)] }

/-- C6 witness: `End` on a small concrete summary and context. -/
theorem c6_end_review_witness :
    ∃ ts' cum' st',
      saveSprintState SprintCommand.sprintEnd sampleSummary (some sampleCtx) ⟨[]⟩
          sampleStorage none "10/12/26" = Except.ok (ts', cum', st')
      ∧ st'.sprintData = none
      ∧ ts'.completedTickets = [] := by
  obtain ⟨ts', cum', st', hA, _, _, hD, _, _, _, hH⟩ :=
    c6_end_review_spec SprintCommand.sprintEnd sampleSummary sampleCtx ⟨[]⟩
      sampleStorage none "10/12/26" (Or.inl rfl) (by decide) (by decide) (by decide)
      (by decide)
  exact ⟨ts', cum', st', hA, hH, hD⟩

/-- C9: the persisted snapshot set built from a `TicketSummary` consists exactly of
the blockedPRs, openPRs, openTickets, completed and deferred buckets (in that order)
and omits the demo bucket; consequently a demo-bucket ticket whose id appears in no
other bucket has no snapshot record, and a live record with its id reconciles on the
next run as a fresh ticket (today's dates, age 0, current sprint). -/
theorem c9_snapshot_omits_demo (s : TicketSummary) :
    (dailyTicketContextsFrom s).tickets =
      (s.blockedPrs ++ s.openPrs ++ s.openTickets ++ s.completedTickets ++
        s.deferredTickets).map DailyTicketContext.fromTicket
    ∧ ∀ t ∈ s.demoes,
      (∀ u ∈ s.blockedPrs ++ s.openPrs ++ s.openTickets ++ s.completedTickets ++
          s.deferredTickets, u.details.id ≠ t.details.id) →
      ((dailyTicketContextsFrom s).tickets.find?
          (fun r => r.id == t.details.id) = none
        ∧ ∀ (sprintName : String) (hist : CumulativeSprintContexts)
            (um : String → Option String) (prf : String → PullRequest)
            (today : String) (d : TicketDetails), d.id = t.details.id →
            (reconcileTicket d
                ((dailyTicketContextsFrom s).tickets.find? (fun r => r.id == d.id))
                sprintName hist um prf today).addedOn = today
            ∧ (reconcileTicket d
                ((dailyTicketContextsFrom s).tickets.find? (fun r => r.id == d.id))
                sprintName hist um prf today).sprintAge = 0
            ∧ (reconcileTicket d
                ((dailyTicketContextsFrom s).tickets.find? (fun r => r.id == d.id))
                sprintName hist um prf today).addedInSprint = sprintName) := by
  refine ⟨rfl, ?_⟩
  intro t _ hids
  have hfind : ∀ (x : String), x = t.details.id →
      (dailyTicketContextsFrom s).tickets.find? (fun r => r.id == x) = none := by
    intro x hx
    subst hx
    rw [List.find?_eq_none]
    intro r hr
    obtain ⟨u, hu, rfl⟩ := List.mem_map.mp hr
    simp only [DailyTicketContext.fromTicket, beq_iff_eq]
    exact hids u hu
  refine ⟨hfind t.details.id rfl, ?_⟩
  intro sprintName hist um prf today d hid
  rw [hfind d.id hid]
  exact ⟨rfl, rfl, rfl⟩

def sampleDemoTicket : Ticket :=
  { samplePlainTicket with
      details :=
        { sampleDetails with id := "d1", state := TicketState.demoFinalApproval } }

def sampleSummaryWithDemo : TicketSummary :=
  { sampleSummary with demoes := [sampleDemoTicket] }

/-- C9 witness: a summary with one demo ticket whose id is distinct from every other
bucket's ids; its id has no snapshot, and a live record with that id reconciles
fresh. -/
theorem c9_snapshot_omits_demo_witness :
    (dailyTicketContextsFrom sampleSummaryWithDemo).tickets.find?
        (fun r => r.id == "d1") = none
    ∧ (reconcileTicket { sampleDetails with id := "d1" }
        ((dailyTicketContextsFrom sampleSummaryWithDemo).tickets.find?
          (fun r => r.id == "d1"))
        "S2" ⟨[]⟩ sampleUserMapping samplePRFetch "10/13/26").addedOn = "10/13/26" := by
  have h := (c9_snapshot_omits_demo sampleSummaryWithDemo).2 sampleDemoTicket
    (by decide) (by decide)
  exact ⟨h.1, (h.2 "S2" ⟨[]⟩ sampleUserMapping samplePRFetch "10/13/26"
    { sampleDetails with id := "d1" } rfl).1⟩

/-- C10: a snapshot-only (orphaned) record materializes with state forced to
`InScope`, `sprintAge = 0`, `isNew = false`, `movedOutOfSprint = true`, no PR and no
members, regardless of the snapshot's recorded state; and whenever its id has no
matching live record, the classifier places the materialized ticket in the deferred
bucket. -/
theorem c10_orphan_forced_deferred (r : DailyTicketContext) :
    (Ticket.fromDailyContext r).details.state = TicketState.inScope
    ∧ (Ticket.fromDailyContext r).sprintAge = 0
    ∧ (Ticket.fromDailyContext r).isNew = false
    ∧ (Ticket.fromDailyContext r).movedOutOfSprint = true
    ∧ (Ticket.fromDailyContext r).pr = none
    ∧ (Ticket.fromDailyContext r).members = []
    ∧ ∀ (cur : List TicketDetails) (prev : DailyTicketContexts) (sprintName : String)
        (hist : CumulativeSprintContexts) (um : String → Option String)
        (prf : String → PullRequest) (today : String),
        r ∈ prev.tickets → (∀ d ∈ cur, d.id ≠ r.id) →
        Ticket.fromDailyContext r ∈
          (fetchTicketSummary cur prev sprintName hist um prf today).deferredTickets := by
  refine ⟨rfl, rfl, rfl, rfl, rfl, rfl, ?_⟩
  intro cur prev sprintName hist um prf today hr hnolive
  have hmem : Ticket.fromDailyContext r ∈
      fetchTicketSummaryTickets cur prev sprintName hist um prf today := by
    unfold fetchTicketSummaryTickets
    apply List.mem_append_right
    apply List.mem_map_of_mem
    rw [List.mem_filter]
    refine ⟨hr, ?_⟩
    simp only [Bool.not_eq_true']
    cases hc : (cur.map (fun d => d.id)).contains r.id with
    | false => rfl
    | true =>
      obtain ⟨x, hx, hbeq⟩ := List.contains_iff_exists_mem_beq.mp hc
      obtain ⟨d, hd, rfl⟩ := List.mem_map.mp hx
      exact absurd (beq_iff_eq.mp hbeq).symm (hnolive d hd)
  have hbucket : bucketOf (Ticket.fromDailyContext r) = some Bucket.deferred := by
    apply bucketOf_deferred_of_moved
    · simp [Ticket.fromDailyContext, TicketState.le, TicketState.toNat]
    · rfl
  have : Ticket.fromDailyContext r ∈
      (fetchTicketSummary cur prev sprintName hist um prf today).bucket
        Bucket.deferred := by
    rw [fetchTicketSummary, mem_bucket_ticketSummaryFrom]
    exact ⟨hmem, hbucket⟩
  exact this

/-- C10 witness: one orphaned snapshot record (whose recorded state is `InProgress`)
with no live records at all; it lands in the deferred bucket. -/
theorem c10_orphan_forced_deferred_witness :
    Ticket.fromDailyContext samplePrevRecord ∈
      (fetchTicketSummary [] ⟨[samplePrevRecord]⟩ "S1" ⟨[]⟩ sampleUserMapping
        samplePRFetch "10/12/26").deferredTickets :=
  (c10_orphan_forced_deferred samplePrevRecord).2.2.2.2.2.2 [] ⟨[samplePrevRecord]⟩
    "S1" ⟨[]⟩ sampleUserMapping samplePRFetch "10/12/26" (by decide) (by decide)

end DailySummaryBot
